import Mathlib

/-!
Shallow embedding of the AI-Search-Transparency single-page application
(src/src/App.tsx and src/src/components/SearchComponents.tsx).

The repository has two layers:
- a query orchestrator (src/src/App.tsx lines 273-390, the inlined
  services/aiService module): key lookup, one backend call, response checks,
  JSON parse, and enrichment of the parsed body with actualQueries and
  isFastMode;
- a presentation layer (App component and SearchComponents): UI state
  (isLoading, isFastMode, data, activeKeyword, error), the submit guard,
  the keyword filter projection, and the rendered chip / card counts.

The backend (the hosted generative-AI API) is external: it is modelled as an
environment record carrying the outcome of the single network call (whether
the transport succeeded, the response text, the grounding-metadata query
list) together with the JSON.parse outcome for a given text. The TypeScript
code casts the parsed JSON to TransparencyResponse without validation
(JSON.parse(text) as TransparencyResponse), so every declared field can be
absent at runtime; the embedding therefore makes all fields of the parsed
body optional, with none standing for an absent (undefined) field.
-/

/-- One retrieved source (interface SearchResult, App.tsx lines 289-294). -/
structure SearchResult where
  keyword : String
  title : String
  url : String
  snippet : String
deriving Repr, DecidableEq

/-- The orchestrator output shape (interface TransparencyResponse, App.tsx
lines 296-302). All fields are Option because the runtime value comes from
an unvalidated cast of JSON.parse output: a field holds none when the
backend body left it absent (undefined in JavaScript). The fields the code
itself writes (actualQueries, isFastMode) are also declared optional in the
TypeScript interface. -/
structure TransparencyResponse where
  keywords : Option (List String)
  results : Option (List SearchResult)
  actualQueries : Option (List String)
  isFastMode : Option Bool
  answer : Option String
deriving Repr, DecidableEq

/-- The four failure conditions of the orchestrator (spec section 7):
missing credential, transport failure of the backend call, empty response
body, body not parseable as JSON. -/
inductive SearchError where
  | apiKeyMissing
  | transportError
  | noResponse
  | malformedResponse
deriving Repr, DecidableEq

/-- Environment of one orchestrator call: the credential configuration and
the behaviour of the single backend request. transportOk is whether
ai.models.generateContent resolves; text is response.text (none when the
field is undefined); webSearchQueries is
response.candidates[0].groundingMetadata.webSearchQueries (none when any
link of that optional chain is undefined); parse gives the JSON.parse
outcome on a given body text (none when parsing throws). -/
structure BackendEnv where
  apiKey : Option String
  transportOk : Bool
  text : Option String
  webSearchQueries : Option (List String)
  parse : String → Option TransparencyResponse

/-- JavaScript falsiness of the apiKey value in getAIClient (App.tsx line
282, if (!apiKey)): undefined or the empty string. -/
def keyMissing : Option String → Bool
  | none => true
  | some k => k == ""

/-- getAIClient (App.tsx lines 276-287): throws when no API key is
configured, before any network request. -/
def getAIClient (apiKey : Option String) : Except SearchError Unit :=
  if keyMissing apiKey then Except.error SearchError.apiKeyMissing
  else Except.ok ()

deriving instance DecidableEq for Except

/-- Observable outcome of one performTransparentSearch call: the returned
value or error, whether the network request was issued, and whether
JSON.parse was attempted. -/
structure CallOutcome where
  result : Except SearchError TransparencyResponse
  networkCalled : Bool
  parseAttempted : Bool

/-- performTransparentSearch (App.tsx lines 304-390). Steps, in source
order: getAIClient (throws before the request when the key is missing);
the single generateContent call (its rejection propagates as a transport
error); the response.text falsiness check (line 369, covering both an
undefined and an empty text); extraction of
groundingMetadata.webSearchQueries with default [] (lines 372-373); the
inner try around JSON.parse and the two field assignments (lines 376-385):
on parse failure the call fails with the malformed-response error, on
success actualQueries is set to data.keywords in fast mode (so it is absent
exactly when keywords is) and to the metadata list otherwise, and
isFastMode is set to the request mode. The prompt built from userQuery
(lines 308-351) only feeds the external model and does not influence any
branch here. -/
def performTransparentSearch (env : BackendEnv) (userQuery : String)
    (isFastMode : Bool) : CallOutcome :=
  match getAIClient env.apiKey with
  | Except.error e =>
      { result := Except.error e, networkCalled := false, parseAttempted := false }
  | Except.ok _ =>
      if env.transportOk = false then
        { result := Except.error SearchError.transportError,
          networkCalled := true, parseAttempted := false }
      else
        match env.text with
        | none =>
            { result := Except.error SearchError.noResponse,
              networkCalled := true, parseAttempted := false }
        | some t =>
            if t = "" then
              { result := Except.error SearchError.noResponse,
                networkCalled := true, parseAttempted := false }
            else
              match env.parse t with
              | none =>
                  { result := Except.error SearchError.malformedResponse,
                    networkCalled := true, parseAttempted := true }
              | some data =>
                  { result := Except.ok { data with
                      actualQueries :=
                        if isFastMode then data.keywords
                        else some (env.webSearchQueries.getD []),
                      isFastMode := some isFastMode },
                    networkCalled := true, parseAttempted := true }

/-- UI state of the App component (App.tsx lines 14-18), plus networkCalls,
an instrumentation counter of issued backend requests used to state the
call-count properties of spec sections 5 and 8 (it is not a source field;
it increments exactly when a call reaches the network). -/
structure AppState where
  isLoading : Bool
  isFastMode : Bool
  data : Option TransparencyResponse
  activeKeyword : Option String
  error : Option String
  networkCalls : Nat
deriving Repr, DecidableEq

/-- Initial state of the useState hooks (App.tsx lines 14-18). -/
def initialState : AppState :=
  { isLoading := false, isFastMode := false, data := none,
    activeKeyword := none, error := none, networkCalls := 0 }

/-- The single generic user-visible failure message (App.tsx line 46). -/
def failMsg : String := "Failed to perform search. Please try again."

/-- First phase of handleSearch (App.tsx lines 22-25), executed before the
backend call: enter loading, clear the previous error, response and filter. -/
def handleSearchStart (s : AppState) : AppState :=
  { s with isLoading := true, error := none, data := none, activeKeyword := none }

/-- Second phase of handleSearch (App.tsx lines 38-50): perform the call
with the fast-mode flag read at this point, then either store the response
(setData runs before the response.keywords.length access, so when keywords
is absent that access throws a TypeError which the same catch converts to
the generic error message, after data was already set) and activate the
"all" filter when keywords is nonempty, or store the generic error message;
finally leave loading. -/
def handleSearchFinish (env : BackendEnv) (query : String) (s : AppState) :
    AppState :=
  let o := performTransparentSearch env query s.isFastMode
  let s1 := { s with
    networkCalls := s.networkCalls + (if o.networkCalled then 1 else 0) }
  let s2 :=
    match o.result with
    | Except.error _ => { s1 with error := some failMsg }
    | Except.ok resp =>
        match resp.keywords with
        | none => { s1 with data := some resp, error := some failMsg }
        | some ks =>
            if ks.length > 0 then
              { s1 with data := some resp, activeKeyword := some "all" }
            else
              { s1 with data := some resp }
  { s2 with isLoading := false }

/-- handleSearch (App.tsx lines 21-51) as one step: clear, call, settle. -/
def handleSearch (env : BackendEnv) (query : String) (s : AppState) : AppState :=
  handleSearchFinish env query (handleSearchStart s)

/-- JavaScript String.prototype.trim as used by handleSubmit: drop leading
and trailing whitespace characters. -/
def jsTrim (s : String) : String :=
  String.mk (((s.toList.dropWhile Char.isWhitespace).reverse.dropWhile
    Char.isWhitespace).reverse)

/-- SearchInput.handleSubmit (SearchComponents.tsx lines 15-20): onSearch
runs only when the trimmed query is nonempty (truthy) and no request is in
flight. -/
def submit (env : BackendEnv) (query : String) (s : AppState) : AppState :=
  if jsTrim query ≠ "" ∧ s.isLoading = false then handleSearch env query s
  else s

/-- The fast-mode toggle button (SearchComponents.tsx line 53 with
onFastModeChange = setIsFastMode, App.tsx line 87). -/
def toggleFastMode (s : AppState) : AppState :=
  { s with isFastMode := !s.isFastMode }

/-- Clicking a keyword chip, including the "all" chip (App.tsx lines
154 and 162): sets only the active filter. -/
def selectKeyword (k : String) (s : AppState) : AppState :=
  { s with activeKeyword := some k }

/-- The Clear Results button (App.tsx lines 90-94), rendered only when a
response is held and no request is in flight. -/
def clearResults (s : AppState) : AppState :=
  if s.data.isSome ∧ s.isLoading = false then
    { s with data := none, activeKeyword := none }
  else s

/-- filteredResults (App.tsx lines 53-57): [] with no response held; the
full results field when the filter is "all" or falsy (unset or the empty
string); otherwise the sublist whose keyword equals the filter. The outer
Option mirrors the results field itself: when that field is absent the
sentinel branch returns undefined and the filter branch throws during
render, both outside the regime the properties below quantify over. -/
def filteredResults (data : Option TransparencyResponse)
    (activeKeyword : Option String) : Option (List SearchResult) :=
  match data with
  | none => some []
  | some d =>
      match activeKeyword with
      | none => d.results
      | some k =>
          if k = "all" ∨ k = "" then d.results
          else d.results.map (fun rs => rs.filter (fun r => r.keyword == k))

/-- Number of keyword chips rendered by data.keywords.map (App.tsx lines
157-165), one per generated keyword; none when the field is absent. -/
def keywordChipCount (d : TransparencyResponse) : Option Nat :=
  d.keywords.map List.length

/-- The count displayed on the All Results chip: resultCount =
data.results.length (App.tsx line 155). -/
def allResultsChipCount (d : TransparencyResponse) : Option Nat :=
  d.results.map List.length

/-- The count displayed on the chip of one keyword: resultCount =
data.results.filter(r.keyword === keyword).length (App.tsx line 163). -/
def keywordChipResultCount (d : TransparencyResponse) (k : String) :
    Option Nat :=
  d.results.map (fun rs => (rs.filter (fun r => r.keyword == k)).length)

/-- Number of ResultCard elements rendered (App.tsx lines 240-259): the
fast-mode panel replaces the card list when data.isFastMode is truthy,
otherwise one card per element of filteredResults. -/
def renderedResultCards (d : TransparencyResponse)
    (active : Option String) : Option Nat :=
  if d.isFastMode.getD false then some 0
  else (filteredResults (some d) active).map List.length

/-- A concrete retrieved source used in the concrete evaluations below. -/
def sampleResult : SearchResult :=
  { keyword := "k1", title := "Title", url := "https://example.com/a",
    snippet := "Snippet" }

/-- A concrete parsed backend body: two keywords, one result tagged with
the first keyword. -/
def sampleBody : TransparencyResponse :=
  { keywords := some ["k1", "k2"], results := some [sampleResult],
    actualQueries := none, isFastMode := none, answer := some "ans" }

/-- A concrete healthy environment: key configured, transport up, nonempty
body that parses to sampleBody, one grounding-metadata query. -/
def sampleEnv : BackendEnv :=
  { apiKey := some "key", transportOk := true, text := some "body",
    webSearchQueries := some ["wq1"], parse := fun _ => some sampleBody }

/-- The value a successful fast-mode call on sampleEnv returns. -/
def sampleFastOutput : TransparencyResponse :=
  { sampleBody with actualQueries := some ["k1", "k2"], isFastMode := some true }

/-- A parsed body with every declared field absent, as JSON.parse can
produce under the unvalidated cast. -/
def emptyBody : TransparencyResponse :=
  { keywords := none, results := none, actualQueries := none,
    isFastMode := none, answer := none }

/-- Environment whose body parses to the all-absent object. -/
def emptyBodyEnv : BackendEnv :=
  { sampleEnv with parse := fun _ => some emptyBody }

/-- The single result of the worked example of spec section 8. -/
def evResult : SearchResult :=
  { keyword := "EV range 2025", title := "Top EV ranges",
    url := "https://example.com/a", snippet := "Range data" }

/-- The mocked backend body of the worked example: two keywords and one
result tagged with the first keyword. -/
def evBody : TransparencyResponse :=
  { keywords := some ["EV range 2025", "EV pricing 2025"],
    results := some [evResult], actualQueries := none, isFastMode := none,
    answer := some "Synthesized answer" }

/-- The mocked environment of the worked example (fast mode off). -/
def evEnv : BackendEnv :=
  { apiKey := some "key", transportOk := true, text := some "body",
    webSearchQueries := some ["ev range 2025"], parse := fun _ => some evBody }

/-- The response the orchestrator hands the UI in the worked example. -/
def evData : TransparencyResponse :=
  { evBody with actualQueries := some ["ev range 2025"], isFastMode := some false }

/-- The UI state after submitting the worked example query. -/
def evState : AppState := submit evEnv "best electric cars in 2025" initialState

/-- C4: for every call to performTransparentSearch with no API key
configured, the call fails with the configuration error and no network
request is issued. -/
theorem c4_missing_key (env : BackendEnv) (q : String) (fast : Bool)
    (h : env.apiKey = none) :
    (performTransparentSearch env q fast).result =
      Except.error SearchError.apiKeyMissing ∧
    (performTransparentSearch env q fast).networkCalled = false := by
  simp [performTransparentSearch, getAIClient, keyMissing, h]

/-- Witness for c4_missing_key at a concrete key-less environment. -/
theorem c4_missing_key_witness :
    (performTransparentSearch { sampleEnv with apiKey := none } "q" false).result =
      Except.error SearchError.apiKeyMissing ∧
    (performTransparentSearch { sampleEnv with apiKey := none } "q" false).networkCalled = false :=
  c4_missing_key { sampleEnv with apiKey := none } "q" false rfl

/-- C5: with a configured key and a transport that succeeds, a missing or
empty response body fails with the no-response error with no parse attempt,
and a nonempty body that does not parse fails with the malformed-response
error, with no recovered value. -/
theorem c5_response_errors (env : BackendEnv) (q : String) (fast : Bool)
    (t : String) (hk : keyMissing env.apiKey = false)
    (htr : env.transportOk = true) :
    ((env.text = none ∨ env.text = some "") →
      (performTransparentSearch env q fast).result =
        Except.error SearchError.noResponse ∧
      (performTransparentSearch env q fast).parseAttempted = false) ∧
    ((env.text = some t ∧ t ≠ "" ∧ env.parse t = none) →
      (performTransparentSearch env q fast).result =
        Except.error SearchError.malformedResponse) := by
  constructor
  · rintro (h | h) <;> simp [performTransparentSearch, getAIClient, hk, htr, h]
  · rintro ⟨h1, h2, h3⟩
    simp [performTransparentSearch, getAIClient, hk, htr, h1, h2, h3]

/-- Witness for c5_response_errors at a concrete missing-body environment. -/
theorem c5_response_errors_witness :
    (({ sampleEnv with text := none } : BackendEnv).text = none ∨
      ({ sampleEnv with text := none } : BackendEnv).text = some "" →
      (performTransparentSearch { sampleEnv with text := none } "q" false).result =
        Except.error SearchError.noResponse ∧
      (performTransparentSearch { sampleEnv with text := none } "q" false).parseAttempted = false) ∧
    (({ sampleEnv with text := none } : BackendEnv).text = some "x" ∧ "x" ≠ "" ∧
      ({ sampleEnv with text := none } : BackendEnv).parse "x" = none →
      (performTransparentSearch { sampleEnv with text := none } "q" false).result =
        Except.error SearchError.malformedResponse) :=
  c5_response_errors { sampleEnv with text := none } "q" false "x" rfl rfl

/-- C6: a submission with a whitespace-only query or while a request is in
flight is a no-op: the state, and with it the count of issued backend
calls, is unchanged. -/
theorem c6_submit_noop (env : BackendEnv) (q : String) (s : AppState)
    (h : jsTrim q = "" ∨ s.isLoading = true) :
    submit env q s = s ∧ (submit env q s).networkCalls = s.networkCalls := by
  have hs : submit env q s = s := by
    rcases h with h | h <;> simp [submit, h]
  exact ⟨hs, by rw [hs]⟩

/-- Witness for c6_submit_noop at a whitespace-only query. -/
theorem c6_submit_noop_witness :
    submit sampleEnv "   " initialState = initialState ∧
    (submit sampleEnv "   " initialState).networkCalls = initialState.networkCalls :=
  c6_submit_noop sampleEnv "   " initialState (Or.inl (by decide))

/-- C1 counterexample: a successful fast-mode call whose returned results
list is not empty, because the parsed body carried a result and the code
validates nothing. -/
theorem c1_counterexample :
    (performTransparentSearch sampleEnv "q" true).result =
      Except.ok sampleFastOutput ∧
    sampleFastOutput.results ≠ some [] := by decide

/-- C1 amended: every successful fast-mode call returns a value whose
actualQueries field equals its keywords field exactly, and whose results
field is the parsed body's results passed through unchanged (so it is empty
exactly when the backend body had it empty, as the fast-mode prompt
instructs, not unconditionally). -/
theorem c1_fast_mode_queries (env : BackendEnv) (q t : String)
    (d : TransparencyResponse) (hk : keyMissing env.apiKey = false)
    (htr : env.transportOk = true) (htext : env.text = some t) (hne : t ≠ "")
    (hp : env.parse t = some d) :
    ∃ r, (performTransparentSearch env q true).result = Except.ok r ∧
      r.actualQueries = r.keywords ∧ r.results = d.results := by
  refine ⟨{ d with actualQueries := d.keywords, isFastMode := some true },
    ?_, rfl, rfl⟩
  simp [performTransparentSearch, getAIClient, hk, htr, htext, hne, hp]

/-- Witness for c1_fast_mode_queries on the concrete healthy environment. -/
theorem c1_fast_mode_queries_witness :
    ∃ r, (performTransparentSearch sampleEnv "q" true).result = Except.ok r ∧
      r.actualQueries = r.keywords ∧ r.results = sampleBody.results :=
  c1_fast_mode_queries sampleEnv "q" "body" sampleBody rfl rfl rfl
    (by decide) rfl

/-- C2 counterexample: the empty string is a specific keyword value, yet
filtering by it returns the full results list (the falsy branch), not the
sublist whose keyword equals the empty string. -/
theorem c2_counterexample :
    filteredResults (some sampleBody) (some "") ≠
      some ([sampleResult].filter (fun r => r.keyword == "")) ∧
    filteredResults (some sampleBody) (some "") = some [sampleResult] ∧
    [sampleResult].filter (fun r => r.keyword == "") = [] := by decide

/-- C2 amended: over a held response with a present results list, the
rendered subset is a pure projection: the "all" sentinel yields the full
list unchanged, a specific keyword that is neither "all" nor the empty
string yields exactly the sublist whose keyword equals it in original
order (the empty-string filter behaves like the unset filter), and
selecting a filter only changes the activeKeyword field, so it issues no
backend call. -/
theorem c2_filter_projection (d : TransparencyResponse)
    (rs : List SearchResult) (k : String) (s : AppState)
    (hres : d.results = some rs) :
    filteredResults (some d) (some "all") = some rs ∧
    (k ≠ "all" → k ≠ "" →
      filteredResults (some d) (some k) =
        some (rs.filter (fun r => r.keyword == k))) ∧
    selectKeyword k s = { s with activeKeyword := some k } ∧
    (selectKeyword k s).networkCalls = s.networkCalls ∧
    (selectKeyword k s).data = s.data := by
  refine ⟨by simp [filteredResults, hres], ?_, rfl, rfl, rfl⟩
  intro h1 h2
  simp [filteredResults, h1, h2, hres]

/-- Witness for c2_filter_projection on the concrete body. -/
theorem c2_filter_projection_witness :
    filteredResults (some sampleBody) (some "all") = some [sampleResult] ∧
    ("k1" ≠ "all" → "k1" ≠ "" →
      filteredResults (some sampleBody) (some "k1") =
        some ([sampleResult].filter (fun r => r.keyword == "k1"))) ∧
    selectKeyword "k1" initialState =
      { initialState with activeKeyword := some "k1" } ∧
    (selectKeyword "k1" initialState).networkCalls =
      initialState.networkCalls ∧
    (selectKeyword "k1" initialState).data = initialState.data :=
  c2_filter_projection sampleBody [sampleResult] "k1" initialState rfl

/-- C8: every successful full-mode call returns a value whose actualQueries
field is exactly the grounding-metadata web-search query list (defaulting
to the empty list when that metadata is absent), independent of the parsed
body's keywords. -/
theorem c8_actual_queries (env : BackendEnv) (q t : String)
    (d : TransparencyResponse) (hk : keyMissing env.apiKey = false)
    (htr : env.transportOk = true) (htext : env.text = some t) (hne : t ≠ "")
    (hp : env.parse t = some d) :
    (performTransparentSearch env q false).result =
      Except.ok { d with
        actualQueries := some (env.webSearchQueries.getD []),
        isFastMode := some false } ∧
    (env.webSearchQueries = none →
      (performTransparentSearch env q false).result =
        Except.ok { d with
          actualQueries := some [],
          isFastMode := some false }) := by
  constructor
  · simp [performTransparentSearch, getAIClient, hk, htr, htext, hne, hp]
  · intro hw
    simp [performTransparentSearch, getAIClient, hk, htr, htext, hne, hp, hw]

/-- Witness for c8_actual_queries on an environment without grounding
metadata. -/
theorem c8_actual_queries_witness :
    (performTransparentSearch { sampleEnv with webSearchQueries := none } "q" false).result =
      Except.ok { sampleBody with
        actualQueries := some (({ sampleEnv with webSearchQueries := none } : BackendEnv).webSearchQueries.getD []),
        isFastMode := some false } ∧
    (({ sampleEnv with webSearchQueries := none } : BackendEnv).webSearchQueries = none →
      (performTransparentSearch { sampleEnv with webSearchQueries := none } "q" false).result =
        Except.ok { sampleBody with
          actualQueries := some [],
          isFastMode := some false }) :=
  c8_actual_queries { sampleEnv with webSearchQueries := none } "q" "body"
    sampleBody rfl rfl rfl (by decide) rfl

/-- C10: every body that parses is returned as-is, with no shape
validation: the call succeeds for an arbitrary parsed value, even one with
absent keywords or results, and the returned value keeps the parsed
keywords, results and answer fields, with only actualQueries and isFastMode
set by the orchestrator. -/
theorem c10_passthrough (env : BackendEnv) (q t : String) (fast : Bool)
    (d : TransparencyResponse) (hk : keyMissing env.apiKey = false)
    (htr : env.transportOk = true) (htext : env.text = some t) (hne : t ≠ "")
    (hp : env.parse t = some d) :
    (performTransparentSearch env q fast).result =
      Except.ok { keywords := d.keywords, results := d.results,
                  actualQueries :=
                    if fast then d.keywords
                    else some (env.webSearchQueries.getD []),
                  isFastMode := some fast, answer := d.answer } := by
  simp [performTransparentSearch, getAIClient, hk, htr, htext, hne, hp]

/-- Witness for c10_passthrough on a body with every declared field absent. -/
theorem c10_passthrough_witness :
    (performTransparentSearch emptyBodyEnv "q" true).result =
      Except.ok { keywords := emptyBody.keywords, results := emptyBody.results,
                  actualQueries :=
                    if true then emptyBody.keywords
                    else some (emptyBodyEnv.webSearchQueries.getD []),
                  isFastMode := some true, answer := emptyBody.answer } :=
  c10_passthrough emptyBodyEnv "q" "body" true emptyBody rfl rfl rfl
    (by decide) rfl

/-- C9 counterexample: in the worked example of spec section 8, reached by
submitting the query against the mocked backend, the All Results chip
displays data.results.length, which is 1, not 2. -/
theorem c9_counterexample :
    evState.data = some evData ∧ keywordChipCount evData = some 2 ∧
    allResultsChipCount evData ≠ some 2 := by decide

/-- C9 amended: in the worked example the UI renders 2 keyword chips, the
All Results chip displays count 1 (the number of fetched results), and
selecting the first keyword renders exactly 1 result card. -/
theorem c9_scenario :
    evState.data = some evData ∧ evState.activeKeyword = some "all" ∧
    keywordChipCount evData = some 2 ∧ allResultsChipCount evData = some 1 ∧
    keywordChipResultCount evData "EV range 2025" = some 1 ∧
    renderedResultCards evData (some "EV range 2025") = some 1 := by decide

/-- Every successful performTransparentSearch call stamps the request mode
into the isFastMode field of the returned value. -/
theorem performTransparentSearch_ok_isFastMode (env : BackendEnv)
    (q : String) (fast : Bool) (r : TransparencyResponse)
    (h : (performTransparentSearch env q fast).result = Except.ok r) :
    r.isFastMode = some fast := by
  unfold performTransparentSearch at h
  split at h
  · simp_all
  · split at h
    · simp_all
    · split at h
      · simp_all
      · split at h
        · simp_all
        · split at h
          · simp_all
          · simp only [Except.ok.injEq] at h
            subst h
            rfl

/-- Starting from a state with no held response, the response stored by
handleSearchFinish carries the fast-mode flag of that state. -/
theorem handleSearchFinish_data_isFastMode (env : BackendEnv) (q : String)
    (s : AppState) (out : TransparencyResponse) (hd : s.data = none)
    (h : (handleSearchFinish env q s).data = some out) :
    out.isFastMode = some s.isFastMode := by
  unfold handleSearchFinish at h
  dsimp only at h
  split at h
  · simp_all
  · rename_i r heq
    split at h
    · simp only [Option.some.injEq] at h
      subst h
      exact performTransparentSearch_ok_isFastMode env q s.isFastMode _ heq
    · split at h <;>
      · simp only [Option.some.injEq] at h
        subst h
        exact performTransparentSearch_ok_isFastMode env q s.isFastMode _ heq

/-- C3: every submission whose backend call fails ends with the single
generic message in the error state, with the loading flag down and no
response held; the previously displayed response was already cleared by the
start phase, before the call. -/
theorem c3_error_state (env : BackendEnv) (q : String) (s : AppState)
    (e : SearchError)
    (h : (performTransparentSearch env q s.isFastMode).result =
      Except.error e) :
    (handleSearchStart s).data = none ∧
    (handleSearch env q s).error = some failMsg ∧
    (handleSearch env q s).data = none ∧
    (handleSearch env q s).isLoading = false := by
  refine ⟨rfl, ?_, ?_, ?_⟩ <;>
    simp [handleSearch, handleSearchFinish, handleSearchStart, h]

/-- Witness for c3_error_state at a concrete transport failure. -/
theorem c3_error_state_witness :
    (handleSearchStart initialState).data = none ∧
    (handleSearch { sampleEnv with transportOk := false } "q" initialState).error = some failMsg ∧
    (handleSearch { sampleEnv with transportOk := false } "q" initialState).data = none ∧
    (handleSearch { sampleEnv with transportOk := false } "q" initialState).isLoading = false :=
  c3_error_state { sampleEnv with transportOk := false } "q" initialState
    SearchError.transportError (by decide)

/-- C7: toggling fast mode leaves the held response, the selected filter
and the error unchanged, and a subsequent submission stores a response
stamped with the flag value read at submit time, the toggled one. -/
theorem c7_toggle_frame (env : BackendEnv) (q : String) (s : AppState)
    (resp : TransparencyResponse) (hq : jsTrim q ≠ "")
    (hl : s.isLoading = false) :
    (toggleFastMode s).data = s.data ∧
    (toggleFastMode s).activeKeyword = s.activeKeyword ∧
    (toggleFastMode s).error = s.error ∧
    ((submit env q (toggleFastMode s)).data = some resp →
      resp.isFastMode = some (!s.isFastMode)) := by
  refine ⟨rfl, rfl, rfl, ?_⟩
  intro hd
  have hc : jsTrim q ≠ "" ∧ (toggleFastMode s).isLoading = false := ⟨hq, hl⟩
  rw [submit, if_pos hc] at hd
  exact handleSearchFinish_data_isFastMode env q
    (handleSearchStart (toggleFastMode s)) resp rfl hd

/-- Witness for c7_toggle_frame on the concrete healthy environment. -/
theorem c7_toggle_frame_witness :
    (toggleFastMode initialState).data = initialState.data ∧
    (toggleFastMode initialState).activeKeyword = initialState.activeKeyword ∧
    (toggleFastMode initialState).error = initialState.error ∧
    ((submit sampleEnv "hi" (toggleFastMode initialState)).data = some sampleFastOutput →
      sampleFastOutput.isFastMode = some (!initialState.isFastMode)) :=
  c7_toggle_frame sampleEnv "hi" initialState sampleFastOutput (by decide) rfl
